import Mathlib

/-!
Verification of the authentication / resource-server pair: an auth service
(`auth_server.py`) that registers users and issues JWT tokens, and a resource
service (`resource_server.py`) that validates tokens and gates item access by
a role/access-level rank comparison.  The Python sources are shallowly
embedded below: dictionaries become association lists, dict `.get` with a
default becomes `dictGet`, HTTP exceptions become an explicit error type, and
the sqlite stores become in-memory lists threaded through the handlers.
-/

namespace AuthProject

/-- An HTTP error as raised by `HTTPException(status_code=..., detail=...)`. -/
structure HTTPError where
  status_code : Nat
  detail : String
deriving DecidableEq, Repr

/- ========================
   RBAC CONFIG (resource_server.py lines 73-95)
   ======================== -/

/-- `ROLE_HIERARCHY` dict from resource_server.py, as an association list. -/
def ROLE_HIERARCHY : List (String × Nat) :=
  [("guest", 0), ("user", 1), ("admin", 2), ("super_admin", 3)]

/-- `ACCESS_LEVELS` dict from resource_server.py, as an association list. -/
def ACCESS_LEVELS : List (String × Nat) :=
  [("public", 0), ("user", 1), ("admin", 2), ("super_admin", 3)]

/-- Python `d.get(k, default)` on a string-keyed dict of naturals. -/
def dictGet (d : List (String × Nat)) (k : String) (default : Nat) : Nat :=
  match d.find? (fun p => p.1 == k) with
  | some p => p.2
  | none => default

/-- Python `k in d` membership test on a string-keyed dict. -/
def dictMem (d : List (String × Nat)) (k : String) : Bool :=
  d.any (fun p => p.1 == k)

/-- `can_access(user_role, required_level)` from resource_server.py:
`ROLE_HIERARCHY.get(user_role, 0) >= ACCESS_LEVELS.get(required_level, 0)`. -/
def can_access (user_role : String) (required_level : String) : Bool :=
  let user_level := dictGet ROLE_HIERARCHY user_role 0
  let required_level_num := dictGet ACCESS_LEVELS required_level 0
  user_level ≥ required_level_num

/- Spec-side rank functions, written from the spec's words for the refinement
claim C1: "the rank of a role name absent from the fixed role table is 0 and
the rank of a level name absent from the fixed level table is 0". -/

/-- Spec's `rank_of_role`: fixed role table, unknown name yields rank 0. -/
def spec_rank_of_role (r : String) : Nat :=
  if r = "guest" then 0
  else if r = "user" then 1
  else if r = "admin" then 2
  else if r = "super_admin" then 3
  else 0

/-- Spec's `rank_of_level`: fixed level table, unknown name yields rank 0. -/
def spec_rank_of_level (l : String) : Nat :=
  if l = "public" then 0
  else if l = "user" then 1
  else if l = "admin" then 2
  else if l = "super_admin" then 3
  else 0

/- ========================
   JWT MODEL (auth_server.py lines 23-26, 138-147;
   resource_server.py lines 12-13, 108-119)
   ======================== -/

/-- The JWT claim payload built by `login` and consumed by the resource
server.  `sub` and `role` are optional: the handlers read them with
`payload.get("sub", "anonymous")` / `payload.get("role", "guest")`, so an
absent key is a representable state, not an error. -/
structure Payload where
  sub : Option String
  role : Option String
  iat : Nat
  exp : Nat
  scope : String
deriving DecidableEq, Repr

/-- A signed JWT: the claim payload together with the key that signed it.
`jose.jwt.encode(payload, secret, algorithm)` is modelled as pairing the
payload with the signing secret; `jwt.decode` checks the secret matches. -/
structure Token where
  payload : Payload
  signing_key : String
deriving DecidableEq, Repr

/-- Errors raised by `jose.jwt.decode` (all subclasses of `JWTError`). -/
inductive JWTError where
  | invalidSignature : JWTError
  | expired : JWTError
deriving DecidableEq, Repr

/-- `JWT_SECRET` (both servers read the same default). -/
def JWT_SECRET : String := "super-secret-key"

/-- `JWT_EXPIRE_SECONDS = 3600` from auth_server.py. -/
def JWT_EXPIRE_SECONDS : Nat := 3600

/-- `jwt.encode(payload, secret, algorithm=JWT_ALGORITHM)`. -/
def jwt_encode (payload : Payload) (secret : String) : Token :=
  ⟨payload, secret⟩

/-- `jwt.decode(token, secret, algorithms=[...])`: verifies the signature
against `secret`, then rejects the token when its `exp` claim lies in the
past (`exp < now`, jose's expiry check with zero leeway). -/
def jwt_decode (t : Token) (secret : String) (now : Nat) :
    Except JWTError Payload :=
  if t.signing_key ≠ secret then .error .invalidSignature
  else if t.payload.exp < now then .error .expired
  else .ok t.payload

/-- `verify_token` dependency from resource_server.py: decode the bearer
token; any `JWTError` becomes `401 Invalid token`. -/
def verify_token (t : Token) (now : Nat) : Except HTTPError Payload :=
  match jwt_decode t JWT_SECRET now with
  | .ok payload => .ok payload
  | .error _ => .error ⟨401, "Invalid token"⟩

/-- `get_user_role(payload)`: extract role from the JWT payload, default
to guest (`payload.get("role", "guest")`). -/
def get_user_role (payload : Payload) : String :=
  payload.role.getD "guest"

/- ========================
   RESOURCE STORE AND HANDLERS (resource_server.py lines 100-189)
   ======================== -/

/-- A row of the `items` table. -/
structure Item where
  id : Nat
  title : String
  description : String
  owner : String
  access_level : String
deriving DecidableEq, Repr

/-- The `items` sqlite table.  `items` is the listing the handlers read with
`SELECT * FROM items ORDER BY created_at DESC`, so it is kept newest first;
an insert prepends (the fresh row has the latest `created_at` and the largest
autoincrement id).  `next_id` is the autoincrement counter; `cur.lastrowid`
of an insert is the value of `next_id` at the time of the insert. -/
structure Store where
  items : List Item
  next_id : Nat
deriving DecidableEq, Repr

/-- The `CreateItem` pydantic request model. -/
structure CreateItem where
  title : String
  description : String
  access_level : String
deriving DecidableEq, Repr

/-- The JSON body returned by `GET /items`. -/
structure ItemsResult where
  user : String
  role : String
  items : List Item
  total_accessible : Nat
  total_items : Nat
deriving DecidableEq, Repr

/-- `get_items` route: read the whole listing newest first, keep the rows
whose access level the caller's role can access, return them with counts. -/
def get_items (st : Store) (payload : Payload) : ItemsResult :=
  let username := payload.sub.getD "anonymous"
  let user_role := get_user_role payload
  let all_items := st.items
  let accessible_items :=
    all_items.filter (fun item => can_access user_role item.access_level)
  { user := username
    role := user_role
    items := accessible_items
    total_accessible := accessible_items.length
    total_items := all_items.length }

/-- The JSON body returned by `POST /items` on success. -/
structure CreateItemResult where
  message : String
  id : Nat
  owner : String
  access_level : String
deriving DecidableEq, Repr

/-- `create_item` route: validate the requested access level is a key of
`ACCESS_LEVELS` (else 400), require `can_access` (else 403), then insert the
row with owner `payload.get("sub", "anonymous")` and echo id and level. -/
def create_item (st : Store) (item : CreateItem) (payload : Payload) :
    Except HTTPError (Store × CreateItemResult) :=
  let username := payload.sub.getD "anonymous"
  let user_role := get_user_role payload
  if !(dictMem ACCESS_LEVELS item.access_level) then
    .error ⟨400, "Invalid access level"⟩
  else if !(can_access user_role item.access_level) then
    .error ⟨403, "Insufficient permissions to create " ++ item.access_level ++ " items"⟩
  else
    let item_id := st.next_id
    let new_item : Item :=
      ⟨item_id, item.title, item.description, username, item.access_level⟩
    .ok (⟨new_item :: st.items, st.next_id + 1⟩,
         ⟨"Item created", item_id, username, item.access_level⟩)

/-- The JSON body returned by `GET /profile`: `payload.get("sub")` is `None`
(here `none`) when the claim is absent. -/
structure ProfileResult where
  username : Option String
  message : String
deriving DecidableEq, Repr

/-- `get_profile` route. -/
def get_profile (payload : Payload) : ProfileResult :=
  ⟨payload.sub, "This is your profile"⟩

/- ========================
   AUTH SERVER (auth_server.py)
   ======================== -/

/-- Python `str.strip()`: drop leading and trailing whitespace.  (Embedded
directly over the character list so that it evaluates in the kernel.) -/
def pyStrip (s : String) : String :=
  ⟨((s.data.dropWhile Char.isWhitespace).reverse.dropWhile
      Char.isWhitespace).reverse⟩

/-- Python `str.lower()`: lowercase every character. -/
def pyLower (s : String) : String :=
  ⟨s.data.map Char.toLower⟩

/-- Modelled from the spec: the PasswordVerifier ("opaque one-way
hash-and-compare primitive", an external collaborator whose implementation —
the `bcrypt` library — is not part of this repository).  A verifier is
modelled as the hashed password paired with its salt, with the contract
`verify(plaintext, hash(plaintext)) = true` and mismatching plaintexts
rejected. -/
structure BcryptHash where
  password : String
  salt : String
deriving DecidableEq, Repr

/-- Modelled from the spec: `bcrypt.hashpw(password, salt)`. -/
def bcrypt_hashpw (password : String) (salt : String) : BcryptHash :=
  ⟨password, salt⟩

/-- Modelled from the spec: `bcrypt.checkpw(password, stored_hash)`. -/
def bcrypt_checkpw (password : String) (stored_hash : BcryptHash) : Bool :=
  stored_hash.password == password

/-- `VALID_ROLES = ["user", "admin", "super_admin"]` (auth_server.py
line 29).  Note `"guest"` is absent. -/
def VALID_ROLES : List String := ["user", "admin", "super_admin"]

/-- A row of the `users` table. -/
structure UserRow where
  username : String
  password_hash : BcryptHash
  role : String
deriving DecidableEq, Repr

/-- The `UserRegister` pydantic request model. -/
structure UserRegister where
  username : String
  password : String
  role : String
deriving DecidableEq, Repr

/-- `register_user` route, faithfully in source order: (1) reject when the
RAW `username` or `password` field is empty (Python truthiness of the
unmodified strings); (2) normalize the username with `strip().lower()`;
(3) hash the password; (4) reject when `role` is not in `VALID_ROLES`;
(5) insert, failing on the username-uniqueness constraint. -/
def register_user (db : List UserRow) (user_data : UserRegister)
    (salt : String) : Except HTTPError (List UserRow × String) :=
  if user_data.username = "" ∨ user_data.password = "" then
    .error ⟨400, "Username and password required"⟩
  else
    let username := pyLower (pyStrip user_data.username)
    let password_hash := bcrypt_hashpw user_data.password salt
    if ¬ VALID_ROLES.contains user_data.role then
      .error ⟨400, "Invalid role. Available roles: user, admin, super_admin"⟩
    else if db.any (fun row => row.username == username) then
      .error ⟨400, "Username already exists"⟩
    else
      .ok (db ++ [⟨username, password_hash, user_data.role⟩],
           "User '" ++ username ++ "' registered successfully")

/-- The JSON body returned by `POST /login` on success. -/
structure LoginResult where
  access_token : Token
  token_type : String
  expires_in : Nat
deriving DecidableEq, Repr

/-- `login` route: normalize the username, look it up (`SELECT password_hash,
role FROM users WHERE username = ?`), fail 401 on an absent row or a failed
bcrypt check — with the identical error either way — then sign the claim
payload {sub, role, iat = now, exp = now + JWT_EXPIRE_SECONDS,
scope = "read write"}. -/
def login (db : List UserRow) (username_raw : String) (password : String)
    (now : Nat) : Except HTTPError LoginResult :=
  let username := pyLower (pyStrip username_raw)
  match db.find? (fun row => row.username == username) with
  | none => .error ⟨401, "Invalid username or password"⟩
  | some row =>
    if ¬ bcrypt_checkpw password row.password_hash then
      .error ⟨401, "Invalid username or password"⟩
    else
      let payload : Payload :=
        ⟨some username, some row.role, now, now + JWT_EXPIRE_SECONDS,
         "read write"⟩
      .ok ⟨jwt_encode payload JWT_SECRET, "Bearer", JWT_EXPIRE_SECONDS⟩

/- ========================
   HELPER LEMMAS
   ======================== -/

lemma dictGet_ROLE_HIERARCHY (r : String) :
    dictGet ROLE_HIERARCHY r 0 = spec_rank_of_role r := by
  by_cases h1 : r = "guest"
  · subst h1; rfl
  by_cases h2 : r = "user"
  · subst h2; rfl
  by_cases h3 : r = "admin"
  · subst h3; rfl
  by_cases h4 : r = "super_admin"
  · subst h4; rfl
  have e1 : ("guest" == r) = false := by simp; exact Ne.symm h1
  have e2 : ("user" == r) = false := by simp; exact Ne.symm h2
  have e3 : ("admin" == r) = false := by simp; exact Ne.symm h3
  have e4 : ("super_admin" == r) = false := by simp; exact Ne.symm h4
  simp [dictGet, ROLE_HIERARCHY, spec_rank_of_role, List.find?, e1, e2, e3, e4,
    h1, h2, h3, h4]

lemma dictGet_ACCESS_LEVELS (l : String) :
    dictGet ACCESS_LEVELS l 0 = spec_rank_of_level l := by
  by_cases h1 : l = "public"
  · subst h1; rfl
  by_cases h2 : l = "user"
  · subst h2; rfl
  by_cases h3 : l = "admin"
  · subst h3; rfl
  by_cases h4 : l = "super_admin"
  · subst h4; rfl
  have e1 : ("public" == l) = false := by simp; exact Ne.symm h1
  have e2 : ("user" == l) = false := by simp; exact Ne.symm h2
  have e3 : ("admin" == l) = false := by simp; exact Ne.symm h3
  have e4 : ("super_admin" == l) = false := by simp; exact Ne.symm h4
  simp [dictGet, ACCESS_LEVELS, spec_rank_of_level, List.find?, e1, e2, e3, e4,
    h1, h2, h3, h4]

lemma dictMem_ACCESS_LEVELS (l : String) :
    dictMem ACCESS_LEVELS l = true ↔
      l ∈ ["public", "user", "admin", "super_admin"] := by
  simp [dictMem, ACCESS_LEVELS, List.any_eq_true]
  constructor <;> intro h <;> rcases h with h | h | h | h <;> simp [h]

/- ========================
   CLAIM THEOREMS
   ======================== -/

/-- C1: for every pair of strings (role, level), `can_access role level` is
true if and only if the rank of the role is at least the rank of the level,
where names absent from the fixed tables rank 0; in particular an unknown
role can access "public" and "user" can access an unknown level.  Totality
and determinism hold because `can_access` is a Lean function. -/
theorem can_access_correct :
    (∀ role level : String,
      can_access role level = true ↔
        spec_rank_of_role role ≥ spec_rank_of_level level)
    ∧ can_access "unknown_role" "public" = true
    ∧ can_access "user" "unknown_level" = true := by
  refine ⟨fun role level => ?_, by decide, by decide⟩
  simp [can_access, dictGet_ROLE_HIERARCHY, dictGet_ACCESS_LEVELS]

/-- C1 witness: the biconditional applied at a concrete pair. -/
theorem can_access_correct_witness :
    spec_rank_of_role "admin" ≥ spec_rank_of_level "user"
    ∧ can_access "admin" "user" = true :=
  ⟨by decide, (can_access_correct.1 "admin" "user").mpr (by decide)⟩

/-- C5: monotonicity of the hierarchy — if the rank of r1 (taken from the
fixed role table, unknown names at 0) is at least the rank of r2, every
level accessible to r2 is accessible to r1. -/
theorem can_access_monotone (r1 r2 l : String)
    (hrank : dictGet ROLE_HIERARCHY r1 0 ≥ dictGet ROLE_HIERARCHY r2 0)
    (hacc : can_access r2 l = true) : can_access r1 l = true := by
  simp only [can_access, decide_eq_true_eq] at *
  omega

/-- C5 witness: monotonicity applied at r1 = "admin", r2 = "user",
level "user". -/
theorem can_access_monotone_witness :
    dictGet ROLE_HIERARCHY "admin" 0 ≥ dictGet ROLE_HIERARCHY "user" 0
    ∧ can_access "user" "user" = true
    ∧ can_access "admin" "user" = true :=
  ⟨by decide, by decide, can_access_monotone "admin" "user" "user"
    (by decide) (by decide)⟩

/-- C6: every name appearing in both `ROLE_HIERARCHY` and `ACCESS_LEVELS`
carries the identical rank in both tables, and within each table the ranks
are strictly increasing over the range 0-3. -/
theorem rank_consistency :
    (∀ p ∈ ROLE_HIERARCHY, ∀ q ∈ ACCESS_LEVELS, p.1 = q.1 → p.2 = q.2)
    ∧ ROLE_HIERARCHY.map Prod.snd = [0, 1, 2, 3]
    ∧ ACCESS_LEVELS.map Prod.snd = [0, 1, 2, 3]
    ∧ List.Chain' (fun a b => a < b) (ROLE_HIERARCHY.map Prod.snd)
    ∧ List.Chain' (fun a b => a < b) (ACCESS_LEVELS.map Prod.snd) :=
  ⟨by decide, rfl, rfl,
    by simp [ROLE_HIERARCHY, List.chain'_cons],
    by simp [ACCESS_LEVELS, List.chain'_cons]⟩

/-- C6 witness: the shared-name clause applied at the pair ("user", 1)
present in both tables. -/
theorem rank_consistency_witness :
    ("user", 1) ∈ ROLE_HIERARCHY ∧ ("user", 1) ∈ ACCESS_LEVELS
    ∧ (("user", 1) : String × Nat).2 = (("user", 1) : String × Nat).2 :=
  ⟨by decide, by decide,
    rank_consistency.1 ("user", 1) (by decide) ("user", 1) (by decide) rfl⟩

/-- C2: authenticated `create_item` with the role read from the token
(default guest): a requested access level outside the fixed set
{public, user, admin, super_admin} fails 400 `Invalid access level`; a level
the role cannot access fails 403 `Forbidden`; otherwise the row is inserted
with owner equal to the token's subject claim and the new id and the echoed
access level are returned. -/
theorem create_item_spec (st : Store) (item : CreateItem) (payload : Payload)
    (u : String) (hsub : payload.sub = some u) :
    (item.access_level ∉ ["public", "user", "admin", "super_admin"] →
      create_item st item payload = .error ⟨400, "Invalid access level"⟩)
    ∧ (item.access_level ∈ ["public", "user", "admin", "super_admin"] →
       can_access (get_user_role payload) item.access_level = false →
       create_item st item payload = .error ⟨403,
         "Insufficient permissions to create " ++ item.access_level ++ " items"⟩)
    ∧ (item.access_level ∈ ["public", "user", "admin", "super_admin"] →
       can_access (get_user_role payload) item.access_level = true →
       create_item st item payload = .ok
         (⟨⟨st.next_id, item.title, item.description, u, item.access_level⟩
             :: st.items, st.next_id + 1⟩,
          ⟨"Item created", st.next_id, u, item.access_level⟩)) := by
  refine ⟨fun hmem => ?_, fun hmem hacc => ?_, fun hmem hacc => ?_⟩
  · have hm : dictMem ACCESS_LEVELS item.access_level = false := by
      rw [← Bool.not_eq_true]
      exact fun hc => hmem ((dictMem_ACCESS_LEVELS _).mp hc)
    simp [create_item, hm]
  · have hm : dictMem ACCESS_LEVELS item.access_level = true :=
      (dictMem_ACCESS_LEVELS _).mpr hmem
    simp [create_item, hm, hacc]
  · have hm : dictMem ACCESS_LEVELS item.access_level = true :=
      (dictMem_ACCESS_LEVELS _).mpr hmem
    simp [create_item, hm, hacc, hsub]

/-- C2 witness: a "user" caller creating a "user"-level item. -/
theorem create_item_spec_witness :
    ((⟨some "alice", some "user", 0, 3600, "read write"⟩ : Payload).sub
        = some "alice")
    ∧ "user" ∈ ["public", "user", "admin", "super_admin"]
    ∧ can_access "user" "user" = true
    ∧ create_item ⟨[], 1⟩ ⟨"t", "d", "user"⟩
        ⟨some "alice", some "user", 0, 3600, "read write"⟩ = .ok
        (⟨[⟨1, "t", "d", "alice", "user"⟩], 2⟩,
         ⟨"Item created", 1, "alice", "user"⟩) :=
  ⟨rfl, by decide, by decide,
    (create_item_spec ⟨[], 1⟩ ⟨"t", "d", "user"⟩
      ⟨some "alice", some "user", 0, 3600, "read write"⟩ "alice" rfl).2.2
      (by decide) (by decide)⟩

/-- C3: `get_items` returns exactly the stored records whose access level
the caller's role (default guest) can access, as an order-preserving
subsequence of the newest-first listing, together with the accessible and
total counts. -/
theorem get_items_spec (st : Store) (payload : Payload) :
    (∀ item : Item, item ∈ (get_items st payload).items ↔
      item ∈ st.items
      ∧ can_access (get_user_role payload) item.access_level = true)
    ∧ List.Sublist (get_items st payload).items st.items
    ∧ (get_items st payload).total_accessible
        = (get_items st payload).items.length
    ∧ (get_items st payload).total_items = st.items.length
    ∧ (payload.role = none → (get_items st payload).role = "guest") := by
  refine ⟨fun item => ?_, ?_, rfl, rfl, fun h => ?_⟩
  · simp [get_items, List.mem_filter]
  · simp only [get_items]
    exact List.filter_sublist st.items
  · simp [get_items, get_user_role, h]

/-- C3 witness: the guest-default clause applied to a role-less payload. -/
theorem get_items_spec_witness :
    ((⟨some "bob", none, 0, 3600, "read write"⟩ : Payload).role = none)
    ∧ (get_items ⟨[⟨1, "a", "", "system", "public"⟩], 2⟩
        ⟨some "bob", none, 0, 3600, "read write"⟩).role = "guest" :=
  ⟨rfl, (get_items_spec ⟨[⟨1, "a", "", "system", "public"⟩], 2⟩
      ⟨some "bob", none, 0, 3600, "read write"⟩).2.2.2.2 rfl⟩

/-- C4: round-trip of issuance and validation — a login for a stored user
at time T yields a token whose claims are exactly {sub = normalized
username, role = stored role, iat = T, exp = T + 3600, scope =
"read write"}; validating it at T succeeds with those claims, and
validating it at T + TTL + 1 fails with `Expired`, surfaced as the 401
at the boundary. -/
theorem login_roundtrip (db : List UserRow) (u pw salt r : String) (T : Nat)
    (hfind : db.find? (fun row => row.username == (pyLower (pyStrip u))) =
      some ⟨(pyLower (pyStrip u)), bcrypt_hashpw pw salt, r⟩) :
    ∃ tok : Token,
      login db u pw T = .ok ⟨tok, "Bearer", JWT_EXPIRE_SECONDS⟩
      ∧ tok.payload = ⟨some (pyLower (pyStrip u)), some r, T,
          T + JWT_EXPIRE_SECONDS, "read write"⟩
      ∧ verify_token tok T = .ok tok.payload
      ∧ jwt_decode tok JWT_SECRET (T + JWT_EXPIRE_SECONDS + 1)
          = .error .expired
      ∧ verify_token tok (T + JWT_EXPIRE_SECONDS + 1)
          = .error ⟨401, "Invalid token"⟩ := by
  refine ⟨jwt_encode ⟨some (pyLower (pyStrip u)), some r, T, T + JWT_EXPIRE_SECONDS,
    "read write"⟩ JWT_SECRET, ?_, rfl, ?_, ?_, ?_⟩
  · simp [login, hfind, bcrypt_checkpw, bcrypt_hashpw]
  · simp [verify_token, jwt_decode, jwt_encode]
  · simp [jwt_decode, jwt_encode]
  · simp [verify_token, jwt_decode, jwt_encode]

/-- C4 witness: the round-trip at the registered user "alice" / role
"user", issued at T = 1000. -/
theorem login_roundtrip_witness :
    ([⟨"alice", bcrypt_hashpw "pw1" "s", "user"⟩] : List UserRow).find?
        (fun row => row.username == (pyLower (pyStrip "alice")))
      = some ⟨(pyLower (pyStrip "alice")), bcrypt_hashpw "pw1" "s", "user"⟩
    ∧ ∃ tok : Token,
      login [⟨"alice", bcrypt_hashpw "pw1" "s", "user"⟩] "alice" "pw1" 1000
          = .ok ⟨tok, "Bearer", JWT_EXPIRE_SECONDS⟩
      ∧ tok.payload = ⟨some (pyLower (pyStrip "alice")), some "user", 1000,
          1000 + JWT_EXPIRE_SECONDS, "read write"⟩
      ∧ verify_token tok 1000 = .ok tok.payload
      ∧ jwt_decode tok JWT_SECRET (1000 + JWT_EXPIRE_SECONDS + 1)
          = .error .expired
      ∧ verify_token tok (1000 + JWT_EXPIRE_SECONDS + 1)
          = .error ⟨401, "Invalid token"⟩ :=
  ⟨by decide, login_roundtrip [⟨"alice", bcrypt_hashpw "pw1" "s", "user"⟩]
    "alice" "pw1" "s" "user" 1000 (by decide)⟩

/-- C7 counterexample: the claim says registration with role "guest" is not
rejected with `InvalidRole`, but `VALID_ROLES` is `["user", "admin",
"super_admin"]`, so a well-formed registration of "bob" with role "guest"
fails with the invalid-role error. -/
theorem register_guest_rejected :
    register_user [] ⟨"bob", "pw", "guest"⟩ "salt" =
      .error ⟨400, "Invalid role. Available roles: user, admin, super_admin"⟩
      := by rfl

/-- C7 amended: register rejects a requested role with `InvalidRole` exactly
when the role is outside the fixed set {user, admin, super_admin} — "guest"
is not accepted at registration — for every request with non-empty username
and password. -/
theorem register_invalid_role_iff (db : List UserRow) (ud : UserRegister)
    (salt : String) (hu : ud.username ≠ "") (hp : ud.password ≠ "") :
    (register_user db ud salt =
      .error ⟨400, "Invalid role. Available roles: user, admin, super_admin"⟩)
    ↔ ud.role ∉ VALID_ROLES := by
  unfold register_user
  rw [if_neg (by simp [hu, hp])]
  by_cases hr : ud.role ∈ VALID_ROLES
  · rw [if_neg (by simp [hr])]
    simp only [hr, not_true_eq_false, iff_false]
    by_cases hdup : db.any
        (fun row => row.username == pyLower (pyStrip ud.username))
    · simp [hdup]
    · simp [hdup]
  · rw [if_pos (by simp [hr])]
    simp [hr]

/-- C7 amended witness: role "superuser" is outside the set and is rejected
with `InvalidRole`. -/
theorem register_invalid_role_iff_witness :
    ("bob" : String) ≠ "" ∧ ("pw" : String) ≠ ""
    ∧ ("superuser" : String) ∉ VALID_ROLES
    ∧ register_user [] ⟨"bob", "pw", "superuser"⟩ "salt" =
      .error ⟨400, "Invalid role. Available roles: user, admin, super_admin"⟩
      :=
  ⟨by decide, by decide, by decide,
    (register_invalid_role_iff [] ⟨"bob", "pw", "superuser"⟩ "salt"
      (by decide) (by decide)).mpr (by decide)⟩

/-- C8 counterexample: the claim says a whitespace-only username fails with
`InvalidInput` and no record is created, but the emptiness check runs on the
RAW username before normalization, so `" "` passes it and a row with the
empty username is inserted. -/
theorem register_whitespace_username_accepted :
    register_user [] ⟨" ", "pw", "user"⟩ "salt" =
      .ok ([⟨"", bcrypt_hashpw "pw" "salt", "user"⟩],
           "User '' registered successfully") := by rfl

/-- C8 amended: register rejects with `InvalidInput` exactly when the RAW
username or the password is the empty string — the check precedes
normalization — and a whitespace-only username (with valid role, non-empty
password, and no stored row with the empty username) is accepted and stored
normalized to the empty string. -/
theorem register_input_check (db : List UserRow) (ud : UserRegister)
    (salt : String) :
    (register_user db ud salt =
        .error ⟨400, "Username and password required"⟩
      ↔ (ud.username = "" ∨ ud.password = ""))
    ∧ (pyStrip ud.username = "" → ud.username ≠ "" → ud.password ≠ "" →
       ud.role ∈ VALID_ROLES → (∀ row ∈ db, row.username ≠ "") →
       register_user db ud salt =
         .ok (db ++ [⟨"", bcrypt_hashpw ud.password salt, ud.role⟩],
              "User '' registered successfully")) := by
  constructor
  · unfold register_user
    by_cases he : ud.username = "" ∨ ud.password = ""
    · simp [he]
    · rw [if_neg he]
      simp only [he, iff_false]
      by_cases hr : ud.role ∈ VALID_ROLES
      · rw [if_neg (by simp [hr])]
        by_cases hdup : db.any
            (fun row => row.username == pyLower (pyStrip ud.username))
        · simp [hdup]
        · simp [hdup]
      · rw [if_pos (by simp [hr])]
        simp
  · intro hws hu hp hr hdb
    unfold register_user
    rw [if_neg (by simp [hu, hp])]
    have hnorm : pyLower (pyStrip ud.username) = "" := by
      rw [hws]; rfl
    rw [hnorm]
    rw [if_neg (by simp [hr])]
    rw [if_neg ?_]
    · rfl
    · simp only [List.any_eq_true, not_exists, not_and]
      intro row hrow
      simp [hdb row hrow]

/-- C8 amended witness: the whitespace-only username " " with password "pw"
and role "user" on an empty store is accepted and stored as "". -/
theorem register_input_check_witness :
    pyStrip " " = "" ∧ (" " : String) ≠ "" ∧ ("pw" : String) ≠ ""
    ∧ ("user" : String) ∈ VALID_ROLES
    ∧ register_user [] ⟨" ", "pw", "user"⟩ "salt" =
      .ok ([] ++ [⟨"", bcrypt_hashpw "pw" "salt", "user"⟩],
           "User '' registered successfully") :=
  ⟨by decide, by decide, by decide, by decide,
    (register_input_check [] ⟨" ", "pw", "user"⟩ "salt").2 (by decide)
      (by decide) (by decide) (by decide) (by simp)⟩

/-- C9: login failure is indistinguishable between an unknown username and a
wrong password — both paths return the identical 401 error with the same
message. -/
theorem login_indistinguishable (db : List UserRow) (u pw : String)
    (now : Nat) :
    (db.find? (fun row => row.username == pyLower (pyStrip u)) = none →
      login db u pw now = .error ⟨401, "Invalid username or password"⟩)
    ∧ (∀ row : UserRow,
        db.find? (fun r0 => r0.username == pyLower (pyStrip u)) = some row →
        bcrypt_checkpw pw row.password_hash = false →
        login db u pw now = .error ⟨401, "Invalid username or password"⟩) := by
  constructor
  · intro h
    simp [login, h]
  · intro row h hc
    simp [login, h, hc]

/-- C9 witness: both failure paths exercised against the same store yield
the identical error. -/
theorem login_indistinguishable_witness :
    ([⟨"alice", bcrypt_hashpw "right" "s", "user"⟩] : List UserRow).find?
        (fun row => row.username == pyLower (pyStrip "mallory")) = none
    ∧ login [⟨"alice", bcrypt_hashpw "right" "s", "user"⟩] "mallory" "x" 0
        = .error ⟨401, "Invalid username or password"⟩
    ∧ ([⟨"alice", bcrypt_hashpw "right" "s", "user"⟩] : List UserRow).find?
        (fun r0 => r0.username == pyLower (pyStrip "alice"))
        = some ⟨"alice", bcrypt_hashpw "right" "s", "user"⟩
    ∧ bcrypt_checkpw "wrong" (bcrypt_hashpw "right" "s") = false
    ∧ login [⟨"alice", bcrypt_hashpw "right" "s", "user"⟩] "alice" "wrong" 0
        = .error ⟨401, "Invalid username or password"⟩ :=
  ⟨by decide,
    (login_indistinguishable [⟨"alice", bcrypt_hashpw "right" "s", "user"⟩]
      "mallory" "x" 0).1 (by decide),
    by decide, by decide,
    (login_indistinguishable [⟨"alice", bcrypt_hashpw "right" "s", "user"⟩]
      "alice" "wrong" 0).2 ⟨"alice", bcrypt_hashpw "right" "s", "user"⟩
      (by decide) (by decide)⟩

/-- C10: for a validly decoded payload lacking the subject claim, no handler
errors on the missing subject — `get_items` reports the username
"anonymous", a successful `create_item` inserts the row with owner
"anonymous", and `get_profile` returns an absent username. -/
theorem missing_sub_defaults (st : Store) (item : CreateItem) (t : Token)
    (now : Nat) (payload : Payload)
    (_hv : verify_token t now = .ok payload) (hsub : payload.sub = none) :
    (get_items st payload).user = "anonymous"
    ∧ (∀ st2 res, create_item st item payload = .ok (st2, res) →
        res.owner = "anonymous"
        ∧ st2.items.head? = some ⟨st.next_id, item.title, item.description,
            "anonymous", item.access_level⟩)
    ∧ (get_profile payload).username = none := by
  refine ⟨by simp [get_items, hsub], ?_, by simp [get_profile, hsub]⟩
  intro st2 res h
  unfold create_item at h
  simp only [hsub, Option.getD_none] at h
  split at h
  · exact absurd h (by simp)
  · split at h
    · exact absurd h (by simp)
    · rw [Except.ok.injEq, Prod.mk.injEq] at h
      obtain ⟨hst, hres⟩ := h
      subst hst hres
      exact ⟨rfl, rfl⟩

/-- C10 witness: a subject-less payload signed with the shared secret,
decoded at time 0. -/
theorem missing_sub_defaults_witness :
    verify_token (jwt_encode ⟨none, none, 0, 3600, "read write"⟩ JWT_SECRET)
        0 = .ok ⟨none, none, 0, 3600, "read write"⟩
    ∧ (get_items ⟨[], 1⟩ ⟨none, none, 0, 3600, "read write"⟩).user
        = "anonymous"
    ∧ (get_profile ⟨none, none, 0, 3600, "read write"⟩).username = none := by
  have h := missing_sub_defaults ⟨[], 1⟩ ⟨"t", "d", "public"⟩
    (jwt_encode ⟨none, none, 0, 3600, "read write"⟩ JWT_SECRET) 0
    ⟨none, none, 0, 3600, "read write"⟩ (by rfl) rfl
  exact ⟨by rfl, h.1, h.2.2⟩

end AuthProject
